import Mathlib

/-!
Verification development for the AI diary backend.

The definitions below are a shallow embedding of the Python sources:
`app/models/schemas.py` (data model), `app/services/diary_service.py`
(record store, quota counting, listing), `app/services/gemini_service.py`
(chat completion flag, summary parsing) and `app/routers/diary_router.py`
(the session-start and delete endpoints).

Modelling conventions:
- timestamps are abstract `Nat` values;
- the local file store (one JSON file per record under a per-user
  directory) is an association list keyed by `(user_id, diary_id)`;
  the file name of a record with key `(u, id)` is `id ++ ".json"`;
- the remote database (Supabase) is a second association list; a state
  whose `remote` component is `none` models the remote store being
  unavailable (client initialisation failed, local-only mode);
- external AI collaborators are parameters: the AI reply text, greeting
  text and the JSON decoder are passed in, never reimplemented.
-/

/-- One chat message, from `app/models/schemas.py` (`ChatMessage`). -/
structure ChatMessage where
  role : String
  content : String
  timestamp : Nat
deriving DecidableEq

/-- One diary record, from `app/models/schemas.py` (`DiaryEntry`). -/
structure DiaryEntry where
  id : String
  created_at : Nat
  conversation : List ChatMessage
  summary : Option String
  emotion_tags : List String
  image_prompt : Option String
  image_paths : List String
  selected_image_index : Int
  bgm_prompt : Option String
  bgm_path : Option String
  style : String
deriving DecidableEq

/-- A list item returned by the listing endpoint, from
`app/models/schemas.py` (`DiaryListItem`). -/
structure DiaryListItem where
  id : String
  created_at : Nat
  summary : Option String
  emotion_tags : List String
  has_image : Bool
  has_bgm : Bool
deriving DecidableEq

/-- Rows of one storage backend, keyed by `(user_id, diary_id)`. -/
abbrev StoreRows := List ((String × String) × DiaryEntry)

/-- Python truthiness of an optional string: `bool(x)` is true exactly for
a present, non-empty string. -/
def truthyStr : Option String → Bool
  | some t => decide (t ≠ "")
  | none => false

/-- Look a record up by key (reading the JSON file / selecting the row). -/
def lookupStore (st : StoreRows) (k : String × String) : Option DiaryEntry :=
  (st.find? (fun kv => decide (kv.1 = k))).map (fun kv => kv.2)

/-- Write a record at a key, overwriting any previous one (file overwrite /
`upsert`). -/
def upsertStore (st : StoreRows) (k : String × String) (e : DiaryEntry) : StoreRows :=
  (st.filter (fun kv => decide (kv.1 ≠ k))) ++ [(k, e)]

/-- Remove the record at a key (`path.unlink()` / `delete ... eq id eq user`). -/
def removeStore (st : StoreRows) (k : String × String) : StoreRows :=
  st.filter (fun kv => decide (kv.1 ≠ k))

/-- The persistent state seen by `DiaryService`: the local file store plus
the remote database, `none` when the Supabase client is unavailable. -/
structure ServiceState where
  localStore : StoreRows
  remote : Option StoreRows
deriving DecidableEq

/-- Embeds `DiaryService.get_diary`: consult the remote store first; when it is
unavailable or has no matching row, fall back to the local file. -/
def get_diary (s : ServiceState) (diary_id user_id : String) : Option DiaryEntry :=
  match s.remote with
  | some db =>
    match lookupStore db (user_id, diary_id) with
    | some e => some e
    | none => lookupStore s.localStore (user_id, diary_id)
  | none => lookupStore s.localStore (user_id, diary_id)

/-- Embeds `DiaryService.save_diary`: write the local file unconditionally, then
upsert the remote row when the remote store is available. -/
def save_diary (s : ServiceState) (d : DiaryEntry) (user_id : String) : ServiceState :=
  { localStore := upsertStore s.localStore (user_id, d.id) d
    remote := s.remote.map (fun db => upsertStore db (user_id, d.id) d) }

/-- The fresh record built at the top of `DiaryService.create_diary`:
`DiaryEntry(id=session_id, created_at=date or datetime.now(), conversation=[])`
with the schema defaults for every other field. -/
def freshEntry (session_id : String) (date : Option Nat) (now : Nat) : DiaryEntry :=
  { id := session_id
    created_at := date.getD now
    conversation := []
    summary := none
    emotion_tags := []
    image_prompt := none
    image_paths := []
    selected_image_index := 0
    bgm_prompt := none
    bgm_path := none
    style := "watercolor" }

/-- Embeds `DiaryService.create_diary`: build the fresh record, upsert it remotely
when possible, then `save_diary` it (which writes both backends again). -/
def create_diary (s : ServiceState) (session_id user_id : String)
    (date : Option Nat) (now : Nat) : DiaryEntry × ServiceState :=
  let d := freshEntry session_id date now
  let s1 : ServiceState :=
    { s with remote := s.remote.map (fun db => upsertStore db (user_id, session_id) d) }
  (d, save_diary s1 d user_id)

/-- Embeds `DiaryService.update_conversation`: fetch the record, creating it when
absent, append the message, and save. -/
def update_conversation (s : ServiceState) (diary_id user_id role content : String)
    (timestamp : Option Nat) (now : Nat) : DiaryEntry × ServiceState :=
  let fetched :=
    match get_diary s diary_id user_id with
    | some d => (d, s)
    | none => create_diary s diary_id user_id timestamp now
  let d2 := { fetched.1 with
    conversation := fetched.1.conversation ++
      [{ role := role, content := content, timestamp := timestamp.getD now }] }
  (d2, save_diary fetched.2 d2 user_id)

/-- Embeds `DiaryService.update_summary`: fetch the record (`None` when absent),
replace summary, emotion tags and image prompt, and save. -/
def update_summary (s : ServiceState) (diary_id user_id summary : String)
    (emotion_tags : List String) (image_prompt : String) :
    Option DiaryEntry × ServiceState :=
  match get_diary s diary_id user_id with
  | none => (none, s)
  | some d =>
    let d2 := { d with
      summary := some summary
      emotion_tags := emotion_tags
      image_prompt := some image_prompt }
    (some d2, save_diary s d2 user_id)

/-- Embeds `DiaryService.add_image_path`: fetch the record (`None` when absent),
append the path and point `selected_image_index` at the new last index. -/
def add_image_path (s : ServiceState) (diary_id user_id image_path : String) :
    Option DiaryEntry × ServiceState :=
  match get_diary s diary_id user_id with
  | none => (none, s)
  | some d =>
    let d2 := { d with
      image_paths := d.image_paths ++ [image_path]
      selected_image_index := ((d.image_paths ++ [image_path]).length : Int) - 1 }
    (some d2, save_diary s d2 user_id)

/-- Embeds `DiaryService.select_image`: fetch the record (`None` when absent); only
an in-range index is stored, an out-of-range one is silently ignored. -/
def select_image (s : ServiceState) (diary_id user_id : String) (image_index : Int) :
    Option DiaryEntry × ServiceState :=
  match get_diary s diary_id user_id with
  | none => (none, s)
  | some d =>
    if 0 ≤ image_index ∧ image_index < (d.image_paths.length : Int) then
      let d2 := { d with selected_image_index := image_index }
      (some d2, save_diary s d2 user_id)
    else
      (some d, s)

/-- Embeds `DiaryService.update_bgm_path`: fetch the record (`None` when absent),
overwrite `bgm_path`, and save. -/
def update_bgm_path (s : ServiceState) (diary_id user_id bgm_path : String) :
    Option DiaryEntry × ServiceState :=
  match get_diary s diary_id user_id with
  | none => (none, s)
  | some d =>
    let d2 := { d with bgm_path := some bgm_path }
    (some d2, save_diary s d2 user_id)

/-- Embeds `DiaryService.delete_diary`: unlink the local file when present, delete
the remote row when the remote store is available, and report whether the
local file existed. -/
def delete_diary (s : ServiceState) (diary_id user_id : String) : Bool × ServiceState :=
  let localDeleted := (lookupStore s.localStore (user_id, diary_id)).isSome
  (localDeleted,
    { localStore := removeStore s.localStore (user_id, diary_id)
      remote := s.remote.map (fun db => removeStore db (user_id, diary_id)) })

/-- Embeds `DiaryService.count_diaries_by_date`: count the local files of the user
whose name matches the glob `diary_<date>_*.json` and whose stored summary
is truthy (present and non-empty). -/
def count_diaries_by_date (s : ServiceState) (user_id date_str : String) : Nat :=
  (s.localStore.filter (fun kv =>
    decide (kv.1.1 = user_id) &&
    List.isPrefixOf ("diary_" ++ date_str ++ "_").data kv.1.2.data &&
    truthyStr kv.2.summary)).length

-- basic store lemmas ---------------------------------------------------------

theorem lookupStore_upsert_self (st : StoreRows) (k : String × String) (e : DiaryEntry) :
    lookupStore (upsertStore st k e) k = some e := by
  unfold lookupStore upsertStore
  rw [List.find?_append]
  have hleft : (st.filter (fun kv => decide (kv.1 ≠ k))).find?
      (fun kv => decide (kv.1 = k)) = none := by
    rw [List.find?_eq_none]
    intro kv hkv
    have := (List.mem_filter.mp hkv).2
    simp only [decide_eq_true_eq] at this ⊢
    exact this
  rw [hleft]
  simp [List.find?]

theorem lookupStore_remove_self (st : StoreRows) (k : String × String) :
    lookupStore (removeStore st k) k = none := by
  unfold lookupStore removeStore
  have : (st.filter (fun kv => decide (kv.1 ≠ k))).find?
      (fun kv => decide (kv.1 = k)) = none := by
    rw [List.find?_eq_none]
    intro kv hkv
    have := (List.mem_filter.mp hkv).2
    simp only [decide_eq_true_eq] at this ⊢
    exact this
  rw [this]
  rfl

theorem mem_upsertStore {st : StoreRows} {k : String × String} {e : DiaryEntry}
    {kv : (String × String) × DiaryEntry} (h : kv ∈ upsertStore st k e) :
    kv = (k, e) ∨ kv ∈ st := by
  unfold upsertStore at h
  rcases List.mem_append.mp h with h1 | h2
  · exact Or.inr (List.mem_filter.mp h1).1
  · simp only [List.mem_singleton] at h2
    exact Or.inl h2

/-- After `save_diary`, reading the saved id back (through `get_diary`, on any
state) returns exactly the record that was saved. -/
theorem get_diary_save_diary (s : ServiceState) (d : DiaryEntry) (u : String) :
    get_diary (save_diary s d u) d.id u = some d := by
  unfold get_diary save_diary
  cases s.remote with
  | none => simpa using lookupStore_upsert_self s.localStore (u, d.id) d
  | some db => simp [lookupStore_upsert_self]

-- listing, quota gate and endpoints ------------------------------------------

/-- Convert a stored record to the shape returned by the listing code:
`has_image` is the truthiness of `image_paths` (a pydantic record has no
legacy `image_path` column), `has_bgm` the truthiness of `bgm_path`. -/
def entryToListItem (e : DiaryEntry) : DiaryListItem :=
  { id := e.id
    created_at := e.created_at
    summary := e.summary
    emotion_tags := e.emotion_tags
    has_image := !e.image_paths.isEmpty
    has_bgm := truthyStr e.bgm_path }

/-- Lexicographic comparison of code-point sequences, the order Python uses
to compare strings (`sorted` on file names). -/
def lexLe : List Char → List Char → Bool
  | [], _ => true
  | _ :: _, [] => false
  | a :: as, b :: bs => if a < b then true else if b < a then false else lexLe as bs

theorem lexLe_total : ∀ a b : List Char, lexLe a b = true ∨ lexLe b a = true := by
  intro a
  induction a with
  | nil => intro b; exact Or.inl rfl
  | cons x xs ih =>
    intro b
    cases b with
    | nil => exact Or.inr rfl
    | cons y ys =>
      rcases lt_trichotomy x y with h | h | h
      · left; simp [lexLe, h]
      · subst h
        have hx : ¬ x < x := lt_irrefl x
        rcases ih ys with h2 | h2
        · left; simp [lexLe, hx]; exact h2
        · right; simp [lexLe, hx]; exact h2
      · right; simp [lexLe, h]

theorem lexLe_trans :
    ∀ a b c : List Char, lexLe a b = true → lexLe b c = true → lexLe a c = true := by
  intro a
  induction a with
  | nil => intro b c _ _; rfl
  | cons x xs ih =>
    intro b c h1 h2
    cases b with
    | nil => simp [lexLe] at h1
    | cons y ys =>
      cases c with
      | nil => simp [lexLe] at h2
      | cons z zs =>
        rcases lt_trichotomy x y with hxy | hxy | hxy
        · rcases lt_trichotomy y z with hyz | hyz | hyz
          · have hxz : x < z := lt_trans hxy hyz
            simp [lexLe, hxz]
          · subst hyz; simp [lexLe, hxy]
          · have hne : ¬ y < z := not_lt.mpr (le_of_lt hyz)
            simp [lexLe, hne, hyz] at h2
        · subst hxy
          have hx : ¬ x < x := lt_irrefl x
          simp only [lexLe, if_neg hx] at h1
          rcases lt_trichotomy x z with hxz | hxz | hxz
          · simp [lexLe, hxz]
          · subst hxz
            simp only [lexLe, if_neg hx] at h2 ⊢
            exact ih ys zs h1 h2
          · have hnf : ¬ x < z := not_lt.mpr (le_of_lt hxz)
            simp [lexLe, hnf, hxz] at h2
        · have hnf : ¬ x < y := not_lt.mpr (le_of_lt hxy)
          simp [lexLe, hnf, hxy] at h1

/-- Descending file-name order used by the local listing:
`sorted(user_dir.glob("*.json"), reverse=True)` compares the file names
`<diary_id>.json` lexicographically by code point. -/
def fileOrd (a b : (String × String) × DiaryEntry) : Prop :=
  lexLe (b.1.2 ++ ".json").data (a.1.2 ++ ".json").data = true

instance : DecidableRel fileOrd := fun a b => by unfold fileOrd; infer_instance

instance : IsTotal ((String × String) × DiaryEntry) fileOrd :=
  ⟨fun a b => lexLe_total (b.1.2 ++ ".json").data (a.1.2 ++ ".json").data⟩

instance : IsTrans ((String × String) × DiaryEntry) fileOrd :=
  ⟨fun _ _ _ h1 h2 => lexLe_trans _ _ _ h2 h1⟩

/-- Descending `created_at` order used by the remote listing query
(`.order("created_at", desc=True)`). -/
def createdOrd (a b : (String × String) × DiaryEntry) : Prop :=
  b.2.created_at ≤ a.2.created_at

instance : DecidableRel createdOrd := fun a b => by unfold createdOrd; infer_instance

instance : IsTotal ((String × String) × DiaryEntry) createdOrd :=
  ⟨fun _ _ => Nat.le_total _ _⟩

instance : IsTrans ((String × String) × DiaryEntry) createdOrd :=
  ⟨fun _ _ _ h1 h2 => Nat.le_trans h2 h1⟩

/-- The local branch of `DiaryService.list_diaries`: walk the user's files in
descending file-name order, skip records with a falsy (`None` or empty)
summary, and build list items. -/
def localListing (st : StoreRows) (u : String) : List DiaryListItem :=
  (List.insertionSort fileOrd (st.filter (fun kv => decide (kv.1.1 = u)))).filterMap
    (fun kv => if truthyStr kv.2.summary then some (entryToListItem kv.2) else none)

/-- The remote branch of `DiaryService.list_diaries`: select the user's rows
whose `summary` is not SQL `null`, ordered by `created_at` descending. -/
def remoteListing (db : StoreRows) (u : String) : List DiaryListItem :=
  (List.insertionSort createdOrd
      (db.filter (fun kv => decide (kv.1.1 = u) && kv.2.summary.isSome))).map
    (fun kv => entryToListItem kv.2)

/-- Embeds `DiaryService.list_diaries`: try the remote query first; when the
remote store is unavailable or its result is empty, fall back to the local
file walk. -/
def list_diaries (s : ServiceState) (u : String) : List DiaryListItem :=
  match s.remote with
  | some db =>
    let r := remoteListing db u
    if r.isEmpty then localListing s.localStore u else r
  | none => localListing s.localStore u

/-- The error taxonomy of the HTTP layer that the claims mention. -/
inductive ApiError where
  | quotaExceeded
  | notFound
  | invalidDate
deriving DecidableEq

/-- Embeds the `start_session` endpoint of `diary_router.py` after date
parsing: reject with the quota condition (HTTP 400) when the user already
has two diaries counted for the date, otherwise build the session id
`diary_<date>_<HHMMSS>_<rand6>`, create the record and append the AI
greeting (the greeting text is an external input). -/
def start_session (s : ServiceState) (user date_str hhmmss rand6 greeting : String)
    (custom_date : Option Nat) (now : Nat) : Except ApiError (String × ServiceState) :=
  if 2 ≤ count_diaries_by_date s user date_str then
    Except.error ApiError.quotaExceeded
  else
    let session_id := "diary_" ++ date_str ++ "_" ++ hhmmss ++ "_" ++ rand6
    let created := create_diary s session_id user custom_date now
    let updated := update_conversation created.2 session_id user "model" greeting
      custom_date now
    Except.ok (session_id, updated.2)

/-- Embeds the `delete_diary` endpoint of `diary_router.py`: run the service
delete and turn a `False` result into HTTP 404. -/
def delete_diary_endpoint (s : ServiceState) (diary_id user : String) :
    Except ApiError ServiceState :=
  let r := delete_diary s diary_id user
  if r.1 then Except.ok r.2 else Except.error ApiError.notFound

/-- Modelled from the spec: the number of records of the owner whose
identifier encodes the date and whose summary is non-null, as the claims
phrase the daily quota ("complete records (records whose summary is
non-null)"). Compare with `count_diaries_by_date`, which is translated
from the source and requires a non-empty summary. -/
def countCompleteNonNullByDate (s : ServiceState) (user_id date_str : String) : Nat :=
  (s.localStore.filter (fun kv =>
    decide (kv.1.1 = user_id) &&
    List.isPrefixOf ("diary_" ++ date_str ++ "_").data kv.1.2.data &&
    kv.2.summary.isSome)).length

-- gemini service -------------------------------------------------------------

/-- Substring test on character lists, the meaning of the Python operator
`needle in haystack` for strings. -/
def infixOf (n : List Char) : List Char → Bool
  | [] => n.isEmpty
  | c :: t => List.isPrefixOf n (c :: t) || infixOf n t

/-- Substring test on strings (`needle in haystack` in Python). -/
def strContains (haystack needle : String) : Bool :=
  infixOf needle.data haystack.data

/-- The fixed termination keyword set of `GeminiService.chat`. -/
def end_keywords : List String := ["그만", "여기까지", "끝", "종료", "마무리"]

/-- The completion flag computed by `GeminiService.chat`: the user message
contains an end keyword, or the AI reply contains one of the two fixed
completion-suggestion phrases. The AI reply text is an external input. -/
def chat_is_complete (user_message response_text : String) : Bool :=
  (end_keywords.any (fun keyword => strContains user_message keyword))
  || strContains response_text "정리해드릴까요"
  || strContains response_text "마무리할까요"

/-- The structured summary payload decoded from the model's JSON answer
(`summary`, `emotion_tags`, `image_prompt`, optional `bgm_prompt`). -/
structure SummaryResult where
  summary : String
  emotion_tags : List String
  image_prompt : String
  bgm_prompt : Option String
deriving DecidableEq

/-- Python `str.strip()` on a code-point sequence: drop whitespace from
both ends. -/
def pyStrip (l : List Char) : List Char :=
  ((l.dropWhile Char.isWhitespace).reverse.dropWhile Char.isWhitespace).reverse

/-- The response clean-up of `GeminiService.generate_summary`: strip the
text, drop a leading triple-backtick-json marker, then a leading
triple-backtick, then a trailing triple-backtick, and strip again before
decoding. Slicing `text[7:]`, `text[3:]` and `text[:-3]` is by code
point, as in Python. -/
def cleanSummaryText (t : String) : String :=
  let l1 := pyStrip t.data
  let l2 := if List.isPrefixOf "```json".data l1 then l1.drop 7 else l1
  let l3 := if List.isPrefixOf "```".data l2 then l2.drop 3 else l2
  let l4 := if List.isPrefixOf "```".data l3.reverse then l3.take (l3.length - 3) else l3
  String.mk (pyStrip l4)

/-- Embeds `GeminiService.generate_summary`: `None` on an empty history;
otherwise decode the cleaned response text with the JSON decoder (an
external collaborator, passed as a function) and, when decoding fails,
degrade to the raw response text with empty tags and an empty image
prompt. -/
def generate_summary (history : List (String × String))
    (jsonLoads : String → Option SummaryResult) (responseText : String) :
    Option SummaryResult :=
  if history.isEmpty then none
  else some (match jsonLoads (cleanSummaryText responseText) with
    | some r => r
    | none =>
      { summary := responseText
        emotion_tags := []
        image_prompt := ""
        bgm_prompt := none })

-- substring characterization ------------------------------------------------

theorem infixOf_eq_true_iff (n : List Char) :
    ∀ h : List Char, infixOf n h = true ↔ n <:+: h := by
  intro h
  induction h with
  | nil =>
    simp [infixOf, List.isEmpty_iff, List.infix_nil]
  | cons c t ih =>
    simp only [infixOf, Bool.or_eq_true, List.isPrefixOf_iff_prefix, ih,
      List.infix_cons_iff]

-- claim theorems -------------------------------------------------------------

/-- C2: with the remote store unavailable, saving a record and reading the
same id back through the service returns a record equal to the saved one in
every field (id, created_at, conversation, summary, emotion_tags,
image_prompt, image_paths, selected_image_index, bgm_prompt, bgm_path,
style). -/
theorem c2_save_get_roundtrip (s : ServiceState) (e : DiaryEntry) (u : String)
    (_hremote : s.remote = none) :
    ∃ e', get_diary (save_diary s e u) e.id u = some e' ∧
      e'.id = e.id ∧ e'.created_at = e.created_at ∧ e'.conversation = e.conversation ∧
      e'.summary = e.summary ∧ e'.emotion_tags = e.emotion_tags ∧
      e'.image_prompt = e.image_prompt ∧ e'.image_paths = e.image_paths ∧
      e'.selected_image_index = e.selected_image_index ∧ e'.bgm_prompt = e.bgm_prompt ∧
      e'.bgm_path = e.bgm_path ∧ e'.style = e.style :=
  ⟨e, get_diary_save_diary s e u, rfl, rfl, rfl, rfl, rfl, rfl, rfl, rfl, rfl, rfl, rfl⟩

def c2Entry : DiaryEntry :=
  { id := "diary_20240101_110000_aaaaaa"
    created_at := 42
    conversation := [{ role := "user", content := "hello", timestamp := 41 }]
    summary := some "a day"
    emotion_tags := ["기쁨"]
    image_prompt := some "a sunset"
    image_paths := ["img/a.png", "img/b.png"]
    selected_image_index := 1
    bgm_prompt := some "calm piano"
    bgm_path := some "bgm/a.wav"
    style := "watercolor" }

def c2State : ServiceState := { localStore := [], remote := none }

theorem c2_save_get_roundtrip_witness :
    ∃ e', get_diary (save_diary c2State c2Entry "u") c2Entry.id "u" = some e' ∧
      e'.id = c2Entry.id ∧ e'.created_at = c2Entry.created_at ∧
      e'.conversation = c2Entry.conversation ∧
      e'.summary = c2Entry.summary ∧ e'.emotion_tags = c2Entry.emotion_tags ∧
      e'.image_prompt = c2Entry.image_prompt ∧ e'.image_paths = c2Entry.image_paths ∧
      e'.selected_image_index = c2Entry.selected_image_index ∧
      e'.bgm_prompt = c2Entry.bgm_prompt ∧
      e'.bgm_path = c2Entry.bgm_path ∧ e'.style = c2Entry.style :=
  c2_save_get_roundtrip c2State c2Entry "u" rfl

/-- C4: on an existing record, `add_image_path` appends the path at the end
of `image_paths`, growing it by exactly one, and points
`selected_image_index` at the newly appended last index. -/
theorem c4_add_image_path_spec (s : ServiceState) (diary_id u p : String) (d : DiaryEntry)
    (h : get_diary s diary_id u = some d) :
    ∃ d', (add_image_path s diary_id u p).1 = some d' ∧
      d'.image_paths = d.image_paths ++ [p] ∧
      d'.image_paths.length = d.image_paths.length + 1 ∧
      d'.selected_image_index = (d'.image_paths.length : Int) - 1 := by
  refine ⟨{ d with
      image_paths := d.image_paths ++ [p]
      selected_image_index := ((d.image_paths ++ [p]).length : Int) - 1 }, ?_, rfl, by simp, rfl⟩
  simp only [add_image_path, h]

def c4State : ServiceState :=
  { localStore := [(("u", "diary_20240101_110000_aaaaaa"), c2Entry)], remote := none }

theorem c4_add_image_path_witness :
    ∃ d', (add_image_path c4State "diary_20240101_110000_aaaaaa" "u" "img/c.png").1 = some d' ∧
      d'.image_paths = c2Entry.image_paths ++ ["img/c.png"] ∧
      d'.image_paths.length = c2Entry.image_paths.length + 1 ∧
      d'.selected_image_index = (d'.image_paths.length : Int) - 1 :=
  c4_add_image_path_spec c4State "diary_20240101_110000_aaaaaa" "u" "img/c.png" c2Entry (by decide)

/-- C5: on an existing record, an out-of-range index (negative or past the
end) leaves record and store untouched and produces no error, while an
in-range index is written to `selected_image_index`. -/
theorem c5_select_image_spec (s : ServiceState) (diary_id u : String) (i : Int)
    (d : DiaryEntry) (h : get_diary s diary_id u = some d) :
    ((i < 0 ∨ (d.image_paths.length : Int) ≤ i) →
      select_image s diary_id u i = (some d, s)) ∧
    ((0 ≤ i ∧ i < (d.image_paths.length : Int)) →
      (select_image s diary_id u i).1 = some { d with selected_image_index := i }) := by
  constructor
  · intro hrange
    have hneg : ¬ (0 ≤ i ∧ i < (d.image_paths.length : Int)) := by
      rcases hrange with h1 | h1
      · exact fun hc => absurd hc.1 (not_le.mpr h1)
      · exact fun hc => absurd hc.2 (not_lt.mpr h1)
    simp only [select_image, h, if_neg hneg]
  · intro hrange
    simp only [select_image, h, if_pos hrange]

theorem c5_select_image_witness :
    (((2 : Int) < 0 ∨ (c2Entry.image_paths.length : Int) ≤ 2) →
      select_image c4State "diary_20240101_110000_aaaaaa" "u" 2 = (some c2Entry, c4State)) ∧
    (((0 : Int) ≤ 2 ∧ (2 : Int) < (c2Entry.image_paths.length : Int)) →
      (select_image c4State "diary_20240101_110000_aaaaaa" "u" 2).1 =
        some { c2Entry with selected_image_index := 2 }) :=
  c5_select_image_spec c4State "diary_20240101_110000_aaaaaa" "u" 2 c2Entry (by decide)

/-- C7: `generate_summary` decodes the response only after the code-fence
clean-up, and when the JSON decoder fails it degrades to the raw response
text with an empty tag list and an empty image prompt instead of failing. -/
theorem c7_generate_summary_parsing (hist : List (String × String))
    (jsonLoads : String → Option SummaryResult) (raw : String)
    (hh : hist.isEmpty = false) :
    (∀ r, jsonLoads (cleanSummaryText raw) = some r →
      generate_summary hist jsonLoads raw = some r) ∧
    (jsonLoads (cleanSummaryText raw) = none →
      generate_summary hist jsonLoads raw =
        some { summary := raw, emotion_tags := [], image_prompt := "", bgm_prompt := none }) := by
  constructor
  · intro r hr
    simp [generate_summary, hh, hr]
  · intro hr
    simp [generate_summary, hh, hr]

def c7Decode : String → Option SummaryResult := fun t =>
  if t = "payload" then
    some { summary := "ok", emotion_tags := ["기쁨"], image_prompt := "p", bgm_prompt := none }
  else none

theorem c7_generate_summary_witness :
    cleanSummaryText "```json\npayload\n```" = "payload" ∧
    ((∀ r, c7Decode (cleanSummaryText "```json\npayload\n```") = some r →
      generate_summary [("user", "hi")] c7Decode "```json\npayload\n```" = some r) ∧
    (c7Decode (cleanSummaryText "```json\npayload\n```") = none →
      generate_summary [("user", "hi")] c7Decode "```json\npayload\n```" =
        some { summary := "```json\npayload\n```", emotion_tags := [], image_prompt := "",
               bgm_prompt := none })) :=
  ⟨by decide, c7_generate_summary_parsing [("user", "hi")] c7Decode "```json\npayload\n```" rfl⟩

/-- C8: the completion flag of a chat turn is true exactly when the user
message contains one of the five fixed termination keywords or the AI reply
contains one of the two fixed completion-suggestion phrases, by substring
match. -/
theorem c8_chat_is_complete_iff (user_message response_text : String) :
    chat_is_complete user_message response_text = true ↔
      ((∃ keyword ∈ end_keywords, keyword.data <:+: user_message.data) ∨
        "정리해드릴까요".data <:+: response_text.data ∨
        "마무리할까요".data <:+: response_text.data) := by
  unfold chat_is_complete strContains
  simp [List.any_eq_true, infixOf_eq_true_iff, or_assoc]

/-- C10: when no record exists for a session id, `update_conversation` (the
path taken by the chat endpoint) does not fail: it creates a fresh record
under that id, appends the message to it and persists it. No quota check
guards this creation path. -/
theorem c10_update_conversation_creates (s : ServiceState) (diary_id u content : String)
    (now : Nat) (h : get_diary s diary_id u = none) :
    (update_conversation s diary_id u "user" content none now).1.id = diary_id ∧
    (update_conversation s diary_id u "user" content none now).1.conversation =
      [{ role := "user", content := content, timestamp := now }] ∧
    (update_conversation s diary_id u "user" content none now).1.summary = none ∧
    get_diary (update_conversation s diary_id u "user" content none now).2 diary_id u =
      some (update_conversation s diary_id u "user" content none now).1 := by
  have key : update_conversation s diary_id u "user" content none now =
      ({ freshEntry diary_id none now with
          conversation := [{ role := "user", content := content, timestamp := now }] },
        save_diary (create_diary s diary_id u none now).2
          { freshEntry diary_id none now with
            conversation := [{ role := "user", content := content, timestamp := now }] } u) := by
    unfold update_conversation
    rw [h]
    rfl
  rw [key]
  exact ⟨rfl, rfl, rfl, get_diary_save_diary _ _ _⟩

def c10Full1 : DiaryEntry :=
  { freshEntry "diary_20240101_090000_aaaaaa" (some 9) 9 with summary := some "done one" }

def c10Full2 : DiaryEntry :=
  { freshEntry "diary_20240101_100000_bbbbbb" (some 10) 10 with summary := some "done two" }

def c10State : ServiceState :=
  { localStore := [(("u", c10Full1.id), c10Full1), (("u", c10Full2.id), c10Full2)]
    remote := none }

theorem c10_update_conversation_creates_witness :
    2 ≤ count_diaries_by_date c10State "u" "20240101" ∧
    ((update_conversation c10State "diary_20240101_230000_cccccc" "u" "user" "hi" none 77).1.id =
        "diary_20240101_230000_cccccc" ∧
      (update_conversation c10State "diary_20240101_230000_cccccc" "u" "user" "hi" none
          77).1.conversation = [{ role := "user", content := "hi", timestamp := 77 }] ∧
      (update_conversation c10State "diary_20240101_230000_cccccc" "u" "user" "hi" none
          77).1.summary = none ∧
      get_diary
          (update_conversation c10State "diary_20240101_230000_cccccc" "u" "user" "hi" none 77).2
          "diary_20240101_230000_cccccc" "u" =
        some (update_conversation c10State "diary_20240101_230000_cccccc" "u" "user" "hi" none
          77).1) :=
  ⟨by decide,
    c10_update_conversation_creates c10State "diary_20240101_230000_cccccc" "u" "hi" 77
      (by decide)⟩

-- the selected-image invariant ------------------------------------------------

/-- The record invariant of C3: whenever `image_paths` is non-empty the
selected index is a valid position in it. -/
def EntryInv (e : DiaryEntry) : Prop :=
  e.image_paths ≠ [] →
    0 ≤ e.selected_image_index ∧ e.selected_image_index < (e.image_paths.length : Int)

instance (e : DiaryEntry) : Decidable (EntryInv e) := by
  unfold EntryInv; infer_instance

/-- Every record of one backend satisfies the invariant. -/
def StoreInv (st : StoreRows) : Prop := ∀ kv ∈ st, EntryInv kv.2

instance (st : StoreRows) : Decidable (StoreInv st) :=
  List.decidableBAll _ st

/-- The invariant on the optional remote backend. -/
def RemoteInv : Option StoreRows → Prop
  | none => True
  | some db => StoreInv db

instance (o : Option StoreRows) : Decidable (RemoteInv o) :=
  match o with
  | none => isTrue trivial
  | some db => inferInstanceAs (Decidable (StoreInv db))

/-- Every record of both backends satisfies the invariant. -/
def StateInv (s : ServiceState) : Prop := StoreInv s.localStore ∧ RemoteInv s.remote

instance (s : ServiceState) : Decidable (StateInv s) := by
  unfold StateInv; infer_instance

theorem StoreInv.upsert {st : StoreRows} {k : String × String} {e : DiaryEntry}
    (h : StoreInv st) (he : EntryInv e) : StoreInv (upsertStore st k e) := by
  intro kv hkv
  rcases mem_upsertStore hkv with rfl | hm
  · exact he
  · exact h kv hm

theorem StateInv.save {s : ServiceState} {d : DiaryEntry} {u : String}
    (h : StateInv s) (hd : EntryInv d) : StateInv (save_diary s d u) := by
  refine ⟨h.1.upsert hd, ?_⟩
  unfold save_diary
  cases hr : s.remote with
  | none => exact trivial
  | some db =>
    have hdb : StoreInv db := by
      have := h.2; rw [hr] at this; exact this
    exact hdb.upsert hd

theorem lookup_entryInv {st : StoreRows} {k : String × String} {e : DiaryEntry}
    (h : StoreInv st) (hl : lookupStore st k = some e) : EntryInv e := by
  unfold lookupStore at hl
  cases hf : st.find? (fun kv => decide (kv.1 = k)) with
  | none => rw [hf] at hl; cases hl
  | some kv =>
    rw [hf] at hl
    have hm := List.mem_of_find?_eq_some hf
    have : kv.2 = e := by
      simpa using hl
    exact this ▸ h kv hm

theorem get_diary_entryInv {s : ServiceState} {diary_id u : String} {d : DiaryEntry}
    (h : StateInv s) (hg : get_diary s diary_id u = some d) : EntryInv d := by
  unfold get_diary at hg
  cases hr : s.remote with
  | none => rw [hr] at hg; exact lookup_entryInv h.1 hg
  | some db =>
    rw [hr] at hg
    have hdb : StoreInv db := by
      have := h.2; rw [hr] at this; exact this
    have hg2 : (match lookupStore db (u, diary_id) with
        | some e => some e
        | none => lookupStore s.localStore (u, diary_id)) = some d := hg
    cases hl : lookupStore db (u, diary_id) with
    | some e =>
      rw [hl] at hg2
      cases hg2
      exact lookup_entryInv hdb hl
    | none =>
      rw [hl] at hg2
      exact lookup_entryInv h.1 hg2

theorem freshEntry_inv (session_id : String) (date : Option Nat) (now : Nat) :
    EntryInv (freshEntry session_id date now) := by
  intro hne
  exact absurd rfl hne

theorem EntryInv.congr_images {d d2 : DiaryEntry} (hd : EntryInv d)
    (hp : d2.image_paths = d.image_paths)
    (hs : d2.selected_image_index = d.selected_image_index) : EntryInv d2 := by
  intro hne
  rw [hp, hs]
  exact hd (hp ▸ hne)

theorem create_diary_inv {s : ServiceState} (h : StateInv s)
    (session_id u : String) (date : Option Nat) (now : Nat) :
    StateInv (create_diary s session_id u date now).2 := by
  unfold create_diary
  refine StateInv.save ⟨h.1, ?_⟩ (freshEntry_inv session_id date now)
  cases hr : s.remote with
  | none => exact trivial
  | some db =>
    have hdb : StoreInv db := by
      have := h.2; rw [hr] at this; exact this
    exact hdb.upsert (freshEntry_inv session_id date now)

/-- C3: the index invariant (a non-empty gallery always has an in-range
selected index) is preserved by every mutating operation of the service;
moreover `select_image` keeps the pointer unchanged on an out-of-range
request and `add_image_path` points it at the most-recently-appended
index. -/
theorem c3_selected_index_invariant (s : ServiceState) (h : StateInv s)
    (diary_id u role content summary image_prompt p bgm : String)
    (tags : List String) (i : Int) (ts : Option Nat) (now : Nat) :
    StateInv (add_image_path s diary_id u p).2 ∧
    StateInv (select_image s diary_id u i).2 ∧
    StateInv (update_summary s diary_id u summary tags image_prompt).2 ∧
    StateInv (update_conversation s diary_id u role content ts now).2 ∧
    StateInv (update_bgm_path s diary_id u bgm).2 ∧
    (∀ d, get_diary s diary_id u = some d →
      ¬ (0 ≤ i ∧ i < (d.image_paths.length : Int)) →
      (select_image s diary_id u i).1 = some d) ∧
    (∀ d d', get_diary s diary_id u = some d →
      (add_image_path s diary_id u p).1 = some d' →
      d'.selected_image_index = (d'.image_paths.length : Int) - 1) := by
  refine ⟨?_, ?_, ?_, ?_, ?_, ?_, ?_⟩
  · cases hg : get_diary s diary_id u with
    | none => simp only [add_image_path, hg]; exact h
    | some d =>
      simp only [add_image_path, hg]
      refine h.save ?_
      intro _
      simp only [List.length_append, List.length_cons, List.length_nil]
      constructor <;> (push_cast; omega)
  · cases hg : get_diary s diary_id u with
    | none => simp only [select_image, hg]; exact h
    | some d =>
      by_cases hi : 0 ≤ i ∧ i < (d.image_paths.length : Int)
      · simp only [select_image, hg, if_pos hi]
        exact h.save (fun _ => hi)
      · simp only [select_image, hg, if_neg hi]
        exact h
  · cases hg : get_diary s diary_id u with
    | none => simp only [update_summary, hg]; exact h
    | some d =>
      simp only [update_summary, hg]
      exact h.save ((get_diary_entryInv h hg).congr_images rfl rfl)
  · cases hg : get_diary s diary_id u with
    | none =>
      simp only [update_conversation, hg]
      exact StateInv.save (create_diary_inv h diary_id u ts now)
        (fun hne => absurd rfl hne)
    | some d =>
      simp only [update_conversation, hg]
      exact StateInv.save h ((get_diary_entryInv h hg).congr_images rfl rfl)
  · cases hg : get_diary s diary_id u with
    | none => simp only [update_bgm_path, hg]; exact h
    | some d =>
      simp only [update_bgm_path, hg]
      exact h.save ((get_diary_entryInv h hg).congr_images rfl rfl)
  · intro d hg hrange
    simp only [select_image, hg, if_neg hrange]
  · intro d d' hg hadd
    simp only [add_image_path, hg, Option.some.injEq] at hadd
    subst hadd
    rfl

def c3State : ServiceState :=
  { localStore := [(("u", c2Entry.id), c2Entry)]
    remote := some [(("u", c2Entry.id), c2Entry)] }

theorem c3_selected_index_invariant_witness :
    StateInv (add_image_path c3State "diary_20240101_110000_aaaaaa" "u" "img/c.png").2 ∧
    StateInv (select_image c3State "diary_20240101_110000_aaaaaa" "u" 0).2 ∧
    StateInv (update_summary c3State "diary_20240101_110000_aaaaaa" "u" "s2" ["t"] "p2").2 ∧
    StateInv (update_conversation c3State "diary_20240101_110000_aaaaaa" "u" "user" "hi"
      none 50).2 ∧
    StateInv (update_bgm_path c3State "diary_20240101_110000_aaaaaa" "u" "bgm/b.wav").2 ∧
    (∀ d, get_diary c3State "diary_20240101_110000_aaaaaa" "u" = some d →
      ¬ ((0 : Int) ≤ 0 ∧ (0 : Int) < (d.image_paths.length : Int)) →
      (select_image c3State "diary_20240101_110000_aaaaaa" "u" 0).1 = some d) ∧
    (∀ d d', get_diary c3State "diary_20240101_110000_aaaaaa" "u" = some d →
      (add_image_path c3State "diary_20240101_110000_aaaaaa" "u" "img/c.png").1 = some d' →
      d'.selected_image_index = (d'.image_paths.length : Int) - 1) :=
  c3_selected_index_invariant c3State (by decide) "diary_20240101_110000_aaaaaa" "u"
    "user" "hi" "s2" "p2" "img/c.png" "bgm/b.wav" ["t"] 0 none 50

-- C1: the daily quota gate ----------------------------------------------------

def c1Empty1 : DiaryEntry :=
  { freshEntry "diary_20240101_110000_aaaaaa" (some 11) 11 with summary := some "" }

def c1Empty2 : DiaryEntry :=
  { freshEntry "diary_20240101_120000_bbbbbb" (some 12) 12 with summary := some "" }

def c1State : ServiceState :=
  { localStore := [(("u", c1Empty1.id), c1Empty1), (("u", c1Empty2.id), c1Empty2)]
    remote := none }

/-- C1 counterexample: an owner with two records for the date whose
summaries are non-null but empty. The claim counts them as complete and
demands a QuotaExceeded failure, yet `start_session` succeeds, because the
source counts a record only when its stored summary is truthy
(non-empty). -/
theorem c1_counterexample :
    2 ≤ countCompleteNonNullByDate c1State "u" "20240101" ∧
    (start_session c1State "u" "20240101" "130000" "cccccc" "hi" none 0).isOk = true :=
  ⟨by decide, by decide⟩

/-- C1 amended: `start_session` succeeds exactly when the owner's local
store holds fewer than 2 records whose id encodes the date and whose
summary is non-null and non-empty; with 2 or more such records it fails
with the QuotaExceeded condition (HTTP 400). Records with a null or empty
summary, and records present only in the remote store, do not count. -/
theorem c1_start_session_quota (s : ServiceState)
    (user date_str hhmmss rand6 greeting : String)
    (custom_date : Option Nat) (now : Nat) :
    ((start_session s user date_str hhmmss rand6 greeting custom_date now).isOk = true ↔
      count_diaries_by_date s user date_str < 2) ∧
    (2 ≤ count_diaries_by_date s user date_str →
      start_session s user date_str hhmmss rand6 greeting custom_date now =
        Except.error ApiError.quotaExceeded) := by
  constructor
  · by_cases hc : 2 ≤ count_diaries_by_date s user date_str
    · simp only [start_session, if_pos hc]
      constructor
      · intro hok
        exact absurd hok (by simp [Except.isOk, Except.toBool])
      · intro hlt
        omega
    · simp only [start_session, if_neg hc]
      constructor
      · intro _
        omega
      · intro _
        rfl
  · intro hc
    simp only [start_session, if_pos hc]

def c1Full1 : DiaryEntry :=
  { freshEntry "diary_20240101_110000_aaaaaa" (some 11) 11 with summary := some "first" }

def c1Full2 : DiaryEntry :=
  { freshEntry "diary_20240101_120000_bbbbbb" (some 12) 12 with summary := some "second" }

def c1FullState : ServiceState :=
  { localStore := [(("u", c1Full1.id), c1Full1), (("u", c1Full2.id), c1Full2)]
    remote := none }

theorem c1_start_session_quota_witness :
    start_session c1FullState "u" "20240101" "130000" "cccccc" "hi" none 0 =
      Except.error ApiError.quotaExceeded :=
  (c1_start_session_quota c1FullState "u" "20240101" "130000" "cccccc" "hi" none 0).2
    (by decide)

-- C9: deletion ----------------------------------------------------------------

def c9RemoteOnly : ServiceState :=
  { localStore := [], remote := some [(("u", c1Full1.id), c1Full1)] }

/-- C9 counterexample: a record that exists (the service's own `get_diary`
finds it in the remote store) whose deletion nevertheless reports
not-found (HTTP 404), because the endpoint's success signal only reflects
the local file. The remote row is deleted all the same. -/
theorem c9_counterexample :
    (get_diary c9RemoteOnly "diary_20240101_110000_aaaaaa" "u").isSome = true ∧
    delete_diary_endpoint c9RemoteOnly "diary_20240101_110000_aaaaaa" "u" =
      Except.error ApiError.notFound :=
  ⟨by decide, rfl⟩

/-- C9 amended: `delete_diary` removes the record from both backends (the
local file and, when available, the remote row); the endpoint returns a
success signal exactly when the local file existed and a not-found signal
(HTTP 404) otherwise — even when a remote-only row existed and was
removed. Deleting an id absent from both stores therefore returns
not-found rather than crashing. -/
theorem c9_delete_diary (s : ServiceState) (diary_id user : String) :
    ((delete_diary s diary_id user).1 =
      (lookupStore s.localStore (user, diary_id)).isSome) ∧
    (lookupStore (delete_diary s diary_id user).2.localStore (user, diary_id) = none) ∧
    (∀ db, (delete_diary s diary_id user).2.remote = some db →
      lookupStore db (user, diary_id) = none) ∧
    ((lookupStore s.localStore (user, diary_id)).isSome = true →
      delete_diary_endpoint s diary_id user =
        Except.ok (delete_diary s diary_id user).2) ∧
    (lookupStore s.localStore (user, diary_id) = none →
      delete_diary_endpoint s diary_id user = Except.error ApiError.notFound) := by
  refine ⟨rfl, lookupStore_remove_self _ _, ?_, ?_, ?_⟩
  · intro db hdb
    cases hr : s.remote with
    | none =>
      rw [show (delete_diary s diary_id user).2.remote = s.remote.map
        (fun db0 => removeStore db0 (user, diary_id)) from rfl, hr] at hdb
      cases hdb
    | some db0 =>
      rw [show (delete_diary s diary_id user).2.remote = s.remote.map
        (fun db0 => removeStore db0 (user, diary_id)) from rfl, hr] at hdb
      have : removeStore db0 (user, diary_id) = db := by
        simpa using hdb
      rw [← this]
      exact lookupStore_remove_self _ _
  · intro hl
    simp only [delete_diary_endpoint, delete_diary]
    rw [hl]
    rfl
  · intro hl
    simp only [delete_diary_endpoint, delete_diary]
    rw [hl]
    rfl

def c9BothState : ServiceState :=
  { localStore := [(("u", c1Full1.id), c1Full1)]
    remote := some [(("u", c1Full1.id), c1Full1)] }

theorem c9_delete_diary_witness :
    delete_diary_endpoint c9BothState "diary_20240101_110000_aaaaaa" "u" =
      Except.ok (delete_diary c9BothState "diary_20240101_110000_aaaaaa" "u").2 :=
  (c9_delete_diary c9BothState "diary_20240101_110000_aaaaaa" "u").2.2.2.1 (by decide)

-- C6: listing -----------------------------------------------------------------

def c6A : DiaryEntry :=
  { freshEntry "diary_20240101_120000_000000" (some 10) 10 with summary := some "x" }

def c6B : DiaryEntry :=
  { freshEntry "diary_20240101_120000_ffffff" (some 5) 5 with summary := some "y" }

def c6State : ServiceState :=
  { localStore := [(("u", c6A.id), c6A), (("u", c6B.id), c6B)], remote := none }

/-- C6 counterexample: with the remote store unavailable, the local fallback
walks the files in descending file-name order, not descending `created_at`
order. Here two session ids were generated within the same wall-clock
second, so their order is decided by the random hex suffix: the record
whose file name sorts later has the earlier `created_at`, and the returned
list is not ordered by `created_at` descending. -/
theorem c6_counterexample :
    ¬ List.Pairwise (fun a b : DiaryListItem => b.created_at ≤ a.created_at)
      (list_diaries c6State "u") := by decide

theorem mem_localListing_summary {st : StoreRows} {u : String} {it : DiaryListItem}
    (h : it ∈ localListing st u) : it.summary ≠ none := by
  unfold localListing at h
  rcases List.mem_filterMap.mp h with ⟨kv, _hmem, hf⟩
  by_cases ht : truthyStr kv.2.summary = true
  · rw [if_pos ht] at hf
    cases hf
    cases hsum : kv.2.summary with
    | none => rw [hsum] at ht; simp [truthyStr] at ht
    | some t => simp [entryToListItem, hsum]
  · rw [if_neg ht] at hf
    cases hf

theorem mem_remoteListing_summary {db : StoreRows} {u : String} {it : DiaryListItem}
    (h : it ∈ remoteListing db u) : it.summary ≠ none := by
  unfold remoteListing at h
  rcases List.mem_map.mp h with ⟨kv, hmem, rfl⟩
  have hmem2 : kv ∈ db.filter (fun kv => decide (kv.1.1 = u) && kv.2.summary.isSome) :=
    (List.mem_insertionSort _).mp hmem
  have hsome : kv.2.summary.isSome = true := by
    have hb := (List.mem_filter.mp hmem2).2
    simp only [Bool.and_eq_true] at hb
    exact hb.2
  show kv.2.summary ≠ none
  exact Option.ne_none_iff_isSome.mpr hsome

theorem localListing_pairwise (st : StoreRows) (u : String)
    (hk : ∀ kv ∈ st, kv.2.id = kv.1.2) :
    List.Pairwise (fun a b : DiaryListItem =>
      lexLe (b.id ++ ".json").data (a.id ++ ".json").data = true)
      (localListing st u) := by
  unfold localListing
  rw [List.pairwise_filterMap]
  have hs : List.Pairwise fileOrd
      (List.insertionSort fileOrd (st.filter (fun kv => decide (kv.1.1 = u)))) :=
    List.sorted_insertionSort fileOrd _
  refine hs.imp_of_mem ?_
  intro a b ha hb hab x hx y hy
  have hast : a ∈ st := (List.mem_filter.mp ((List.mem_insertionSort _).mp ha)).1
  have hbst : b ∈ st := (List.mem_filter.mp ((List.mem_insertionSort _).mp hb)).1
  simp only [Option.mem_def] at hx hy
  by_cases hta : truthyStr a.2.summary = true
  · rw [if_pos hta] at hx
    by_cases htb : truthyStr b.2.summary = true
    · rw [if_pos htb] at hy
      cases hx
      cases hy
      show lexLe ((entryToListItem b.2).id ++ ".json").data
        ((entryToListItem a.2).id ++ ".json").data = true
      have hxa : (entryToListItem a.2).id = a.1.2 := hk a hast
      have hyb : (entryToListItem b.2).id = b.1.2 := hk b hbst
      rw [hxa, hyb]
      exact hab
    · rw [if_neg htb] at hy
      cases hy
  · rw [if_neg hta] at hx
    cases hx

theorem remoteListing_pairwise (db : StoreRows) (u : String) :
    List.Pairwise (fun a b : DiaryListItem => b.created_at ≤ a.created_at)
      (remoteListing db u) := by
  unfold remoteListing
  have hp : List.Pairwise createdOrd
      (List.insertionSort createdOrd
        (db.filter (fun kv => decide (kv.1.1 = u) && kv.2.summary.isSome))) :=
    List.sorted_insertionSort createdOrd _
  exact hp.map _ (fun a b hab => hab)

/-- C6 amended: every returned item has a non-null summary (in-progress
records are excluded); the remote listing is ordered by `created_at`
descending, but the local fallback listing (used when the remote store is
unavailable or returns nothing) is ordered by descending file name
`<id>.json`, which agrees with `created_at` order only when ids encode
creation order. The hypothesis states the representation invariant that a
local file is named after the id of the record it holds, which
`save_diary` maintains. -/
theorem c6_list_diaries_filter_order (s : ServiceState) (u : String)
    (hk : ∀ kv ∈ s.localStore, kv.2.id = kv.1.2) :
    (∀ it ∈ list_diaries s u, it.summary ≠ none) ∧
    List.Pairwise (fun a b : DiaryListItem =>
      lexLe (b.id ++ ".json").data (a.id ++ ".json").data = true)
      (localListing s.localStore u) ∧
    (∀ db, s.remote = some db →
      List.Pairwise (fun a b : DiaryListItem => b.created_at ≤ a.created_at)
        (remoteListing db u)) ∧
    (s.remote = none → list_diaries s u = localListing s.localStore u) := by
  refine ⟨?_, localListing_pairwise s.localStore u hk,
    fun db _ => remoteListing_pairwise db u, ?_⟩
  · intro it hit
    unfold list_diaries at hit
    cases hr : s.remote with
    | none =>
      rw [hr] at hit
      exact mem_localListing_summary hit
    | some db =>
      rw [hr] at hit
      have hit2 : it ∈ (if (remoteListing db u).isEmpty then localListing s.localStore u
          else remoteListing db u) := hit
      by_cases he : (remoteListing db u).isEmpty = true
      · rw [if_pos he] at hit2
        exact mem_localListing_summary hit2
      · rw [if_neg he] at hit2
        exact mem_remoteListing_summary hit2
  · intro hr
    unfold list_diaries
    rw [hr]

def c6WitState : ServiceState :=
  { localStore := [(("u", c6A.id), c6A), (("u", c6B.id), c6B)]
    remote := some [(("u", c6A.id), c6A), (("u", c6B.id), c6B)] }

theorem c6_list_diaries_filter_order_witness :
    (∀ it ∈ list_diaries c6WitState "u", it.summary ≠ none) ∧
    List.Pairwise (fun a b : DiaryListItem =>
      lexLe (b.id ++ ".json").data (a.id ++ ".json").data = true)
      (localListing c6WitState.localStore "u") ∧
    (∀ db, c6WitState.remote = some db →
      List.Pairwise (fun a b : DiaryListItem => b.created_at ≤ a.created_at)
        (remoteListing db "u")) ∧
    (c6WitState.remote = none →
      list_diaries c6WitState "u" = localListing c6WitState.localStore "u") :=
  c6_list_diaries_filter_order c6WitState "u" (by decide)
